import Mathlib

/-!
Shallow embedding of the Google Workspace MCP server
(src/unnamed/part_001): the static tool catalog, the call dispatcher and
the eight tool handlers, modelled as pure functions over an explicit
provider oracle.  Each handler returns both the list of outbound
Gmail/Calendar requests it issues and the ToolResult envelope it
produces, so that call shapes, fan-out and error conversion can be
stated and proved.
-/

namespace GWS

/-- JavaScript values as produced by the handlers and consumed by
JSON.stringify: undefined, strings, arrays and objects (fields in
insertion order). -/
inductive JVal where
  | undefined : JVal
  | str : String → JVal
  | arr : List JVal → JVal
  | obj : List (String × JVal) → JVal

/-- Lower-case hexadecimal digit, as used by JSON escape sequences. -/
def hexDigit (n : Nat) : Char :=
  if n < 10 then Char.ofNat (48 + n) else Char.ofNat (87 + n)

/-- Escaping of a single character inside a JSON string literal,
following JSON.stringify: quote, backslash and control characters are
escaped, everything else is kept. -/
def escapeChar (c : Char) : List Char :=
  if c = '"' then ['\\', '"']
  else if c = '\\' then ['\\', '\\']
  else if c = '\n' then ['\\', 'n']
  else if c = '\r' then ['\\', 'r']
  else if c = '\t' then ['\\', 't']
  else if c.toNat = 8 then ['\\', 'b']
  else if c.toNat = 12 then ['\\', 'f']
  else if c.toNat < 32 then
    ['\\', 'u', '0', '0', hexDigit (c.toNat / 16), hexDigit (c.toNat % 16)]
  else [c]

/-- JSON string literal for s, double quotes included. -/
def jsonQuote (s : String) : String :=
  String.mk ('"' :: (List.flatten (s.toList.map escapeChar) ++ ['"']))

/-- Indentation prefix at nesting depth d for JSON.stringify with
indent 2. -/
def jIndent (d : Nat) : String := String.mk (List.replicate (2 * d) ' ')

mutual

/-- Rendering of a JavaScript value by JSON.stringify(v, null, 2) in a
non-top-level position: undefined renders as null only inside arrays
(object fields holding undefined are skipped by renderFieldLines). -/
def renderVal : JVal → Nat → String
  | .undefined, _ => "null"
  | .str s, _ => jsonQuote s
  | .arr xs, d =>
    match xs with
    | [] => "[]"
    | x :: rest =>
      "[\n" ++ String.intercalate ",\n" (renderElems (x :: rest) (d + 1)) ++
        "\n" ++ jIndent d ++ "]"
  | .obj fs, d =>
    match renderFieldLines fs (d + 1) with
    | [] => "\x7b\x7d"
    | l :: rest =>
      "\x7b\n" ++ String.intercalate ",\n" (l :: rest) ++
        "\n" ++ jIndent d ++ "\x7d"

/-- One indented line per array element. -/
def renderElems : List JVal → Nat → List String
  | [], _ => []
  | x :: rest, d => (jIndent d ++ renderVal x d) :: renderElems rest d

/-- One indented "key": value line per object field, skipping fields
whose value is undefined, as JSON.stringify does. -/
def renderFieldLines : List (String × JVal) → Nat → List String
  | [], _ => []
  | (_, .undefined) :: rest, d => renderFieldLines rest d
  | (k, v) :: rest, d =>
    (jIndent d ++ jsonQuote k ++ ": " ++ renderVal v d) :: renderFieldLines rest d

end

/-- JSON.stringify(v, null, 2): undefined at the top level yields the
undefined value (modelled as none), everything else a string. -/
def jsonStringify : JVal → Option String
  | .undefined => none
  | .str s => some (renderVal (.str s) 0)
  | .arr xs => some (renderVal (.arr xs) 0)
  | .obj fs => some (renderVal (.obj fs) 0)

/-! ## JavaScript coercions used by the handlers -/

/-- JS `x || d` for an optional number argument: undefined and 0 are
falsy and fall back to the default. -/
def jsOrNat (o : Option Nat) (d : Nat) : Nat :=
  match o with
  | some n => if n = 0 then d else n
  | none => d

/-- JS `x || d` for an optional string argument: undefined and the
empty string are falsy and fall back to the default. -/
def jsOrStr (o : Option String) (d : String) : String :=
  match o with
  | some s => if s = "" then d else s
  | none => d

/-- JS template-literal coercion of a possibly-undefined string:
undefined interpolates as the text "undefined". -/
def jsStr (o : Option String) : String :=
  match o with
  | some s => s
  | none => "undefined"

/-- JS truthiness of a possibly-undefined string (undefined and ""
are falsy). -/
def jsTruthyStr (o : Option String) : Bool :=
  match o with
  | some s => s ≠ ""
  | none => false

/-! ## Outbound provider requests

One record type per distinct Gmail/Calendar call the server makes,
holding exactly the request parameters the source passes. -/

/-- gmail.users.messages.list request. -/
structure GmailListReq where
  userId : String
  maxResults : Nat
  q : String
deriving DecidableEq, Repr

/-- gmail.users.messages.get request. -/
structure GmailGetReq where
  userId : String
  id : String
deriving DecidableEq, Repr

/-- gmail.users.messages.send request (raw holds the encoded message). -/
structure GmailSendReq where
  userId : String
  raw : String
deriving DecidableEq, Repr

/-- gmail.users.messages.modify request. -/
structure GmailModifyReq where
  userId : String
  id : Option String
  addLabelIds : List String
  removeLabelIds : List String
deriving DecidableEq, Repr

/-- A calendar event attendee record, built as `\x7b email \x7d`. -/
structure Attendee where
  email : String
deriving DecidableEq, Repr

/-- Structured date-time sent for event start/end: the caller's ISO
string plus the host process's time zone. -/
structure EventDateTime where
  dateTime : Option String
  timeZone : String
deriving DecidableEq, Repr

/-- Event body built by handleCreateEvent (all caller fields passed
through, start/end wrapped with the host time zone). -/
structure EventBody where
  summary : Option String
  location : Option String
  description : Option String
  start : EventDateTime
  end_ : EventDateTime
  attendees : List Attendee
deriving DecidableEq, Repr

/-- Sparse patch body built by handleUpdateEvent: a field is none
exactly when the source leaves the key out of the patch object. -/
structure EventPatch where
  summary : Option String := none
  location : Option String := none
  description : Option String := none
  start : Option EventDateTime := none
  end_ : Option EventDateTime := none
  attendees : Option (List Attendee) := none
deriving DecidableEq, Repr

/-- calendar.events.list request. -/
structure CalListReq where
  calendarId : String
  timeMin : String
  timeMax : Option String
  maxResults : Nat
  singleEvents : Bool
  orderBy : String
deriving DecidableEq, Repr

/-- calendar.events.insert request. -/
structure CalInsertReq where
  calendarId : String
  requestBody : EventBody
deriving DecidableEq, Repr

/-- calendar.events.patch request. -/
structure CalPatchReq where
  calendarId : String
  eventId : Option String
  requestBody : EventPatch
deriving DecidableEq, Repr

/-- calendar.events.delete request. -/
structure CalDeleteReq where
  calendarId : String
  eventId : Option String
deriving DecidableEq, Repr

/-- One outbound provider call, as recorded in a handler's call log. -/
inductive ProviderCall where
  | gmailList : GmailListReq → ProviderCall
  | gmailGet : GmailGetReq → ProviderCall
  | gmailSend : GmailSendReq → ProviderCall
  | gmailModify : GmailModifyReq → ProviderCall
  | calList : CalListReq → ProviderCall
  | calInsert : CalInsertReq → ProviderCall
  | calPatch : CalPatchReq → ProviderCall
  | calDelete : CalDeleteReq → ProviderCall
deriving DecidableEq, Repr

/-! ## Provider responses -/

/-- A message reference from the list call; the source asserts the id
non-null (msg.id!). -/
structure MsgRef where
  id : String
deriving DecidableEq, Repr

/-- gmail list response data: the messages field may be absent. -/
structure ListMsgsResp where
  messages : Option (List MsgRef)
deriving DecidableEq, Repr

/-- One message header; name and value may each be absent. -/
structure Header where
  name : Option String
  value : Option String
deriving DecidableEq, Repr

/-- Message payload: the headers field may be absent. -/
structure MsgPayload where
  headers : Option (List Header)
deriving DecidableEq, Repr

/-- gmail get response data: the payload may be absent. -/
structure MsgDetail where
  payload : Option MsgPayload
deriving DecidableEq, Repr

/-- gmail send/modify and calendar insert/patch response data: only the
id field is read by the handlers. -/
structure IdResp where
  id : Option String
deriving DecidableEq, Repr

/-- One calendar event as returned by the provider: id, summary and
location are optional strings, start and end are passed through as
opaque structured values. -/
structure GEvent where
  id : Option String
  summary : Option String
  start : JVal
  end_ : JVal
  location : Option String

/-- calendar list response data: the items field may be absent. -/
structure EventsResp where
  items : Option (List GEvent)

/-- The provider oracle: the response each outbound call would receive.
An `Except.error m` models a rejected promise whose error message is m.
The list/search fan-out consults gmailGet per message id. -/
structure Provider where
  gmailList : Except String ListMsgsResp
  gmailGet : String → Except String MsgDetail
  gmailSend : Except String IdResp
  gmailModify : Except String IdResp
  calList : Except String EventsResp
  calInsert : Except String IdResp
  calPatch : Except String IdResp
  calDelete : Except String Unit

/-! ## Tool invocation arguments and results -/

/-- The arguments object of a tool invocation: a JS object whose
recognised keys are all optional. Absent key = none. -/
structure Args where
  maxResults : Option Nat := none
  query : Option String := none
  «to» : Option String := none
  subject : Option String := none
  body : Option String := none
  cc : Option String := none
  bcc : Option String := none
  id : Option String := none
  addLabels : Option (List String) := none
  removeLabels : Option (List String) := none
  eventId : Option String := none
  summary : Option String := none
  location : Option String := none
  description : Option String := none
  start : Option String := none
  end_ : Option String := none
  attendees : Option (List String) := none
  timeMin : Option String := none
  timeMax : Option String := none
deriving DecidableEq, Repr

/-- One entry of a ToolResult's content; text is none when the source
stores the undefined value there. -/
structure ContentItem where
  type : String
  text : Option String
deriving DecidableEq, Repr

/-- The uniform result envelope: content plus the isError flag (absent
in the source's success objects, modelled as false). -/
structure ToolResult where
  content : List ContentItem
  isError : Bool
deriving DecidableEq, Repr

/-- The `\x7b content: [\x7b type, text \x7d], isError: true \x7d`
envelope every catch block returns. -/
def errEnvelope (t : String) : ToolResult :=
  ⟨[⟨"text", some t⟩], true⟩

/-- A success envelope with a single text entry. -/
def okEnvelope (t : Option String) : ToolResult :=
  ⟨[⟨"text", t⟩], false⟩

/-! ## Gmail facade -/

/-- Projection of one fetched message into the summary object: the
first header whose name is exactly Subject / From / Date supplies the
value, an absent match yields the empty string. -/
def emailSummary (msg : MsgRef) (detail : MsgDetail) : JVal :=
  let headers := detail.payload.bind (fun pl => pl.headers)
  let subject :=
    ((headers.bind (List.find? (fun h => h.name = some "Subject"))).bind
      (fun h => h.value)).getD ""
  let «from» :=
    ((headers.bind (List.find? (fun h => h.name = some "From"))).bind
      (fun h => h.value)).getD ""
  let date :=
    ((headers.bind (List.find? (fun h => h.name = some "Date"))).bind
      (fun h => h.value)).getD ""
  .obj [("id", .str msg.id), ("subject", .str subject),
        ("from", .str «from»), ("date", .str date)]

/-- handleListEmails: one list call (maxResults and query with their
falsy-or defaults), then one get call per returned message reference;
the joined summaries are rendered as pretty-printed JSON, any failure
is converted into the error envelope. -/
def handleListEmails (args : Args) (p : Provider) :
    List ProviderCall × ToolResult :=
  let maxResults := jsOrNat args.maxResults 10
  let query := jsOrStr args.query ""
  let listReq : GmailListReq := ⟨"me", maxResults, query⟩
  match p.gmailList with
  | .error m => ([.gmailList listReq], errEnvelope ("Error fetching emails: " ++ m))
  | .ok respData =>
    let messages := respData.messages.getD []
    let getCalls := messages.map (fun msg => ProviderCall.gmailGet ⟨"me", msg.id⟩)
    match messages.mapM (fun msg => (p.gmailGet msg.id).map (emailSummary msg)) with
    | .error m =>
      (ProviderCall.gmailList listReq :: getCalls,
       errEnvelope ("Error fetching emails: " ++ m))
    | .ok emailDetails =>
      (ProviderCall.gmailList listReq :: getCalls,
       okEnvelope (jsonStringify (.arr emailDetails)))

/-- handleSearchEmails: the source duplicates handleListEmails verbatim
(same defaults, same fan-out, same projection, same error text). -/
def handleSearchEmails (args : Args) (p : Provider) :
    List ProviderCall × ToolResult :=
  let maxResults := jsOrNat args.maxResults 10
  let query := jsOrStr args.query ""
  let listReq : GmailListReq := ⟨"me", maxResults, query⟩
  match p.gmailList with
  | .error m => ([.gmailList listReq], errEnvelope ("Error fetching emails: " ++ m))
  | .ok respData =>
    let messages := respData.messages.getD []
    let getCalls := messages.map (fun msg => ProviderCall.gmailGet ⟨"me", msg.id⟩)
    match messages.mapM (fun msg => (p.gmailGet msg.id).map (emailSummary msg)) with
    | .error m =>
      (ProviderCall.gmailList listReq :: getCalls,
       errEnvelope ("Error fetching emails: " ++ m))
    | .ok emailDetails =>
      (ProviderCall.gmailList listReq :: getCalls,
       okEnvelope (jsonStringify (.arr emailDetails)))

/-- The MIME message handleSendEmail builds before encoding: the
source's array literal, then .filter(Boolean) (which drops every
empty-string entry, including the intended blank separator line), then
.join with CRLF. -/
def emailMessageOf (args : Args) : String :=
  String.intercalate "\r\n" (List.filter (fun s => s ≠ "")
    [ "Content-Type: text/html; charset=utf-8",
      "MIME-Version: 1.0",
      "To: " ++ jsStr args.«to»,
      (match args.cc with
       | some c => if c = "" then "" else "Cc: " ++ c
       | none => ""),
      (match args.bcc with
       | some b => if b = "" then "" else "Bcc: " ++ b
       | none => ""),
      "Subject: " ++ jsStr args.subject,
      "",
      jsStr args.body ])

/-- The standard base64 alphabet. -/
def base64Chars : List Char :=
  "ABCDEFGHIJKLMNOPQRSTUVWXYZabcdefghijklmnopqrstuvwxyz0123456789+/".toList

/-- Character of the standard base64 alphabet at index n. -/
def b64c (n : Nat) : Char := base64Chars.getD n 'A'

/-- Standard base64 of a byte sequence, padding included
(Buffer.toString with base64). -/
def base64Encode : List Nat → String
  | [] => ""
  | [a] => String.mk [b64c (a / 4), b64c (a % 4 * 16), '=', '=']
  | [a, b] => String.mk [b64c (a / 4), b64c (a % 4 * 16 + b / 16), b64c (b % 16 * 4), '=']
  | a :: b :: c :: rest =>
    String.mk [b64c (a / 4), b64c (a % 4 * 16 + b / 16),
               b64c (b % 16 * 4 + c / 64), b64c (c % 64)] ++ base64Encode rest

/-- Removal of every trailing '=' (the /=+$/ replacement). -/
def stripTrailingEq (s : String) : String :=
  String.mk ((s.toList.reverse.dropWhile (fun c => c = '=')).reverse)

/-- UTF-8 bytes of one code point (Buffer.from encodes UTF-8). -/
def utf8Bytes (c : Char) : List Nat :=
  let n := c.toNat
  if n < 128 then [n]
  else if n < 2048 then [192 + n / 64, 128 + n % 64]
  else if n < 65536 then [224 + n / 4096, 128 + n / 64 % 64, 128 + n % 64]
  else [240 + n / 262144, 128 + n / 4096 % 64, 128 + n / 64 % 64, 128 + n % 64]

/-- UTF-8 bytes of a string. -/
def strBytes (s : String) : List Nat :=
  List.flatten (s.toList.map utf8Bytes)

/-- Buffer.from(message).toString('base64') followed by replacing '+'
with '-', '/' with '_' and stripping trailing '='. -/
def encodeEmailMessage (msg : String) : String :=
  stripTrailingEq (String.mk
    ((base64Encode (strBytes msg)).toList.map
      (fun c => if c = '+' then '-' else if c = '/' then '_' else c)))

/-- handleSendEmail: builds and encodes the message, issues one send
call with the encoded raw message, converts failure into the error
envelope. -/
def handleSendEmail (args : Args) (p : Provider) :
    List ProviderCall × ToolResult :=
  let message := emailMessageOf args
  let encodedMessage := encodeEmailMessage message
  let req : GmailSendReq := ⟨"me", encodedMessage⟩
  match p.gmailSend with
  | .error m => ([.gmailSend req], errEnvelope ("Error sending email: " ++ m))
  | .ok respData =>
    ([.gmailSend req],
     okEnvelope (some ("Email sent successfully. Message ID: " ++ jsStr respData.id)))

/-- handleModifyEmail: destructuring defaults turn absent label arrays
into empty arrays; one modify call is issued. -/
def handleModifyEmail (args : Args) (p : Provider) :
    List ProviderCall × ToolResult :=
  let addLabels := args.addLabels.getD []
  let removeLabels := args.removeLabels.getD []
  let req : GmailModifyReq := ⟨"me", args.id, addLabels, removeLabels⟩
  match p.gmailModify with
  | .error m => ([.gmailModify req], errEnvelope ("Error modifying email: " ++ m))
  | .ok respData =>
    ([.gmailModify req],
     okEnvelope (some ("Email modified successfully. Updated labels for message ID: "
       ++ jsStr respData.id)))

/-! ## Calendar facade -/

/-- handleCreateEvent: builds the full event body (attendees default
to the empty array, start/end wrapped with the host time zone tz) and
issues one insert call against the primary calendar. -/
def handleCreateEvent (args : Args) (p : Provider) (tz : String) :
    List ProviderCall × ToolResult :=
  let attendees := args.attendees.getD []
  let event : EventBody :=
    ⟨args.summary, args.location, args.description,
     ⟨args.start, tz⟩, ⟨args.end_, tz⟩,
     attendees.map (fun email => ⟨email⟩)⟩
  let req : CalInsertReq := ⟨"primary", event⟩
  match p.calInsert with
  | .error m => ([.calInsert req], errEnvelope ("Error creating event: " ++ m))
  | .ok respData =>
    ([.calInsert req],
     okEnvelope (some ("Event created successfully. Event ID: " ++ jsStr respData.id)))

/-- The sparse patch handleUpdateEvent builds: each if (field) guard
admits only truthy values (for the attendees array, any supplied array,
empty included, is truthy). -/
def eventPatchOf (args : Args) (tz : String) : EventPatch :=
  { summary := if jsTruthyStr args.summary then args.summary else none
    location := if jsTruthyStr args.location then args.location else none
    description := if jsTruthyStr args.description then args.description else none
    start := if jsTruthyStr args.start then some ⟨args.start, tz⟩ else none
    end_ := if jsTruthyStr args.end_ then some ⟨args.end_, tz⟩ else none
    attendees := args.attendees.map (fun l => l.map (fun email => ⟨email⟩)) }

/-- handleUpdateEvent: one patch call against the primary calendar with
the sparse patch body. -/
def handleUpdateEvent (args : Args) (p : Provider) (tz : String) :
    List ProviderCall × ToolResult :=
  let event := eventPatchOf args tz
  let req : CalPatchReq := ⟨"primary", args.eventId, event⟩
  match p.calPatch with
  | .error m => ([.calPatch req], errEnvelope ("Error updating event: " ++ m))
  | .ok respData =>
    ([.calPatch req],
     okEnvelope (some ("Event updated successfully. Event ID: " ++ jsStr respData.id)))

/-- handleDeleteEvent: one delete call; the success text echoes the
caller's eventId (the provider's delete response has no body). -/
def handleDeleteEvent (args : Args) (p : Provider) :
    List ProviderCall × ToolResult :=
  let req : CalDeleteReq := ⟨"primary", args.eventId⟩
  match p.calDelete with
  | .error m => ([.calDelete req], errEnvelope ("Error deleting event: " ++ m))
  | .ok _ =>
    ([.calDelete req],
     okEnvelope (some ("Event deleted successfully. Event ID: " ++ jsStr args.eventId)))

/-- An optional provider string as a JS value (absent = undefined). -/
def jOptStr : Option String → JVal
  | some s => .str s
  | none => .undefined

/-- Projection of one provider event to the
\x7bid, summary, start, end, location\x7d summary, start and end passed
through unchanged. -/
def projectEvent (event : GEvent) : JVal :=
  .obj [("id", jOptStr event.id), ("summary", jOptStr event.summary),
        ("start", event.start), ("end", event.end_),
        ("location", jOptStr event.location)]

/-- handleListEvents: one list call against the primary calendar with
singleEvents true and orderBy startTime; maxResults and timeMin get
falsy-or defaults (10, now); the optional-chained map leaves the events
value undefined when the items field is absent. -/
def handleListEvents (args : Args) (p : Provider) (now : String) :
    List ProviderCall × ToolResult :=
  let maxResults := jsOrNat args.maxResults 10
  let timeMin := jsOrStr args.timeMin now
  let timeMax := args.timeMax
  let req : CalListReq := ⟨"primary", timeMin, timeMax, maxResults, true, "startTime"⟩
  match p.calList with
  | .error m =>
    ([.calList req], errEnvelope ("Error fetching calendar events: " ++ m))
  | .ok respData =>
    let events : JVal :=
      match respData.items with
      | none => .undefined
      | some items => .arr (items.map projectEvent)
    ([.calList req], okEnvelope (jsonStringify events))

/-! ## Tool registry -/

/-- items schema of an array-typed property. -/
structure ItemsSchema where
  type : String
deriving DecidableEq, Repr

/-- One property of a tool input schema, keyed by its name; the source
puts a stray required flag inside one property object (search_emails'
query), kept here as requiredFlag. -/
structure PropSchema where
  name : String
  type : String
  description : String
  items : Option ItemsSchema := none
  requiredFlag : Option Bool := none
deriving DecidableEq, Repr

/-- A tool's input schema: always type object, with its properties in
declaration order and the required list (absent key = empty). -/
structure InputSchema where
  type : String
  properties : List PropSchema
  required : List String := []
deriving DecidableEq, Repr

/-- One entry of the advertised tool catalog. -/
structure ToolDescriptor where
  name : String
  description : String
  inputSchema : InputSchema
deriving DecidableEq, Repr

/-- The fixed catalog the ListToolsRequestSchema handler returns on
every call. -/
def toolCatalog : List ToolDescriptor :=
  [ { name := "list_emails"
      description := "List recent emails from Gmail inbox"
      inputSchema :=
        { type := "object"
          properties :=
            [ { name := "maxResults", type := "number"
                description := "Maximum number of emails to return (default: 10)" },
              { name := "query", type := "string"
                description := "Search query to filter emails" } ] } },
    { name := "search_emails"
      description := "Search emails with advanced query"
      inputSchema :=
        { type := "object"
          properties :=
            [ { name := "query", type := "string"
                description := "Gmail search query (e.g., \"from:example@gmail.com has:attachment\")"
                requiredFlag := some true },
              { name := "maxResults", type := "number"
                description := "Maximum number of emails to return (default: 10)" } ]
          required := ["query"] } },
    { name := "send_email"
      description := "Send a new email"
      inputSchema :=
        { type := "object"
          properties :=
            [ { name := "to", type := "string"
                description := "Recipient email address" },
              { name := "subject", type := "string"
                description := "Email subject" },
              { name := "body", type := "string"
                description := "Email body (can include HTML)" },
              { name := "cc", type := "string"
                description := "CC recipients (comma-separated)" },
              { name := "bcc", type := "string"
                description := "BCC recipients (comma-separated)" } ]
          required := ["to", "subject", "body"] } },
    { name := "modify_email"
      description := "Modify email labels (archive, trash, mark read/unread)"
      inputSchema :=
        { type := "object"
          properties :=
            [ { name := "id", type := "string"
                description := "Email ID" },
              { name := "addLabels", type := "array"
                description := "Labels to add"
                items := some ⟨"string"⟩ },
              { name := "removeLabels", type := "array"
                description := "Labels to remove"
                items := some ⟨"string"⟩ } ]
          required := ["id"] } },
    { name := "list_events"
      description := "List upcoming calendar events"
      inputSchema :=
        { type := "object"
          properties :=
            [ { name := "maxResults", type := "number"
                description := "Maximum number of events to return (default: 10)" },
              { name := "timeMin", type := "string"
                description := "Start time in ISO format (default: now)" },
              { name := "timeMax", type := "string"
                description := "End time in ISO format" } ] } },
    { name := "create_event"
      description := "Create a new calendar event"
      inputSchema :=
        { type := "object"
          properties :=
            [ { name := "summary", type := "string"
                description := "Event title" },
              { name := "location", type := "string"
                description := "Event location" },
              { name := "description", type := "string"
                description := "Event description" },
              { name := "start", type := "string"
                description := "Start time in ISO format" },
              { name := "end", type := "string"
                description := "End time in ISO format" },
              { name := "attendees", type := "array"
                description := "List of attendee email addresses"
                items := some ⟨"string"⟩ } ]
          required := ["summary", "start", "end"] } },
    { name := "update_event"
      description := "Update an existing calendar event"
      inputSchema :=
        { type := "object"
          properties :=
            [ { name := "eventId", type := "string"
                description := "Event ID to update" },
              { name := "summary", type := "string"
                description := "New event title" },
              { name := "location", type := "string"
                description := "New event location" },
              { name := "description", type := "string"
                description := "New event description" },
              { name := "start", type := "string"
                description := "New start time in ISO format" },
              { name := "end", type := "string"
                description := "New end time in ISO format" },
              { name := "attendees", type := "array"
                description := "New list of attendee email addresses"
                items := some ⟨"string"⟩ } ]
          required := ["eventId"] } },
    { name := "delete_event"
      description := "Delete a calendar event"
      inputSchema :=
        { type := "object"
          properties :=
            [ { name := "eventId", type := "string"
                description := "Event ID to delete" } ]
          required := ["eventId"] } } ]

/-! ## Dispatcher -/

/-- Protocol error codes; only MethodNotFound is thrown by this
server. -/
inductive ErrorCode where
  | methodNotFound : ErrorCode
deriving DecidableEq, Repr

/-- An McpError as thrown by the dispatcher's default branch. -/
structure McpError where
  code : ErrorCode
  message : String
deriving DecidableEq, Repr

/-- The CallToolRequestSchema handler: a switch on the tool name that
delegates known names to their handler and throws
McpError(MethodNotFound, "Unknown tool: " + name) otherwise. now is
new Date().toISOString() at invocation time, tz the host time zone. -/
def dispatch (name : String) (args : Args) (p : Provider) (now tz : String) :
    Except McpError (List ProviderCall × ToolResult) :=
  if name = "list_emails" then .ok (handleListEmails args p)
  else if name = "search_emails" then .ok (handleSearchEmails args p)
  else if name = "send_email" then .ok (handleSendEmail args p)
  else if name = "modify_email" then .ok (handleModifyEmail args p)
  else if name = "list_events" then .ok (handleListEvents args p now)
  else if name = "create_event" then .ok (handleCreateEvent args p tz)
  else if name = "update_event" then .ok (handleUpdateEvent args p tz)
  else if name = "delete_event" then .ok (handleDeleteEvent args p)
  else .error ⟨ErrorCode.methodNotFound, "Unknown tool: " ++ name⟩

/-- The eight registered tool names, in switch order. -/
def registeredToolNames : List String :=
  ["list_emails", "search_emails", "send_email", "modify_email",
   "list_events", "create_event", "update_event", "delete_event"]

/-! ## Concrete fixtures used to instantiate the theorems -/

/-- A provider oracle on which every call succeeds: empty mailbox,
empty event list, fixed response ids. -/
def stubProvider : Provider :=
  { gmailList := .ok ⟨some []⟩
    gmailGet := fun _ => .ok ⟨none⟩
    gmailSend := .ok ⟨some "s1"⟩
    gmailModify := .ok ⟨some "m1"⟩
    calList := .ok ⟨some []⟩
    calInsert := .ok ⟨some "e1"⟩
    calPatch := .ok ⟨some "e1"⟩
    calDelete := .ok () }

/-- A provider oracle whose mailbox holds one message (its detail
fetch succeeds with no headers) and whose event list answer carries no
items field. -/
def probeProvider : Provider :=
  { gmailList := .ok ⟨some [⟨"m1"⟩]⟩
    gmailGet := fun _ => .ok ⟨some ⟨some []⟩⟩
    gmailSend := .ok ⟨none⟩
    gmailModify := .ok ⟨none⟩
    calList := .ok ⟨none⟩
    calInsert := .ok ⟨none⟩
    calPatch := .ok ⟨none⟩
    calDelete := .ok () }

/-- A provider oracle whose calendar insert fails with the message
quota exceeded. -/
def quotaProvider : Provider :=
  { stubProvider with calInsert := .error "quota exceeded" }

/-- A provider oracle whose gmail list answer carries no messages
field. -/
def noMessagesProvider : Provider :=
  { stubProvider with gmailList := .ok ⟨none⟩ }

/-- The send_email arguments of the spec's test property: to, subject
and body supplied, cc and bcc absent. -/
def c3Args : Args :=
  { «to» := some "a@x.com", subject := some "Hi", body := some "<b>hi</b>" }

/-- Two provider events with structured start/end values. -/
def sampleEvents : List GEvent :=
  [⟨some "ev1", some "Standup",
    .obj [("dateTime", .str "2025-03-01T10:00:00Z"), ("timeZone", .str "UTC")],
    .obj [("dateTime", .str "2025-03-01T10:30:00Z"), ("timeZone", .str "UTC")],
    some "Room 1"⟩,
   ⟨some "ev2", none, .obj [("date", .str "2025-03-02")], .undefined, none⟩]

/-- A provider oracle whose event list returns sampleEvents. -/
def eventsProvider : Provider :=
  { stubProvider with calList := .ok ⟨some sampleEvents⟩ }

/-! ## Theorems -/

/-- C7: the tool catalog is a fixed constant of exactly eight
descriptors named list_emails, search_emails, send_email, modify_email,
list_events, create_event, update_event, delete_event, whose required
fields are query; to, subject, body; id; summary, start, end; eventId;
eventId; and none for list_emails and list_events. -/
theorem toolCatalog_fixed :
    toolCatalog.map (fun t => t.name) = registeredToolNames ∧
    toolCatalog.map (fun t => (t.name, t.inputSchema.required)) =
      [("list_emails", []), ("search_emails", ["query"]),
       ("send_email", ["to", "subject", "body"]), ("modify_email", ["id"]),
       ("list_events", []), ("create_event", ["summary", "start", "end"]),
       ("update_event", ["eventId"]), ("delete_event", ["eventId"])] := by
  constructor <;> rfl

/-- C1: dispatching any tool name outside the eight registered names
fails with an McpError of code MethodNotFound carrying the Unknown tool
message, and never yields an ok ToolResult envelope. -/
theorem dispatch_unknown_method_not_found
    (name : String) (args : Args) (p : Provider) (now tz : String)
    (h : name ∉ registeredToolNames) :
    dispatch name args p now tz =
      .error ⟨ErrorCode.methodNotFound, "Unknown tool: " ++ name⟩ ∧
    ∀ res, dispatch name args p now tz ≠ .ok res := by
  simp only [registeredToolNames, List.mem_cons, List.not_mem_nil, or_false,
    not_or] at h
  obtain ⟨h1, h2, h3, h4, h5, h6, h7, h8⟩ := h
  have hd : dispatch name args p now tz =
      .error ⟨ErrorCode.methodNotFound, "Unknown tool: " ++ name⟩ := by
    simp [dispatch, h1, h2, h3, h4, h5, h6, h7, h8]
  exact ⟨hd, fun res hres => by rw [hd] at hres; exact Except.noConfusion hres⟩

/-- Witness for C1 at the name bogus_tool. -/
theorem dispatch_unknown_witness :
    "bogus_tool" ∉ registeredToolNames ∧
    dispatch "bogus_tool" {} stubProvider "2025-03-01T00:00:00.000Z" "UTC" =
      .error ⟨ErrorCode.methodNotFound, "Unknown tool: " ++ "bogus_tool"⟩ :=
  ⟨by decide,
   (dispatch_unknown_method_not_found "bogus_tool" {} stubProvider
     "2025-03-01T00:00:00.000Z" "UTC" (by decide)).1⟩

/-- C2: when the calendar insert call fails with message m, the
create_event handler converts the failure into the single-entry
envelope Error creating event: m with isError true, and the dispatcher
returns it as an ok result (the exception does not propagate). -/
theorem createEvent_provider_error_envelope
    (args : Args) (p : Provider) (now tz m : String)
    (h : p.calInsert = .error m) :
    dispatch "create_event" args p now tz =
      .ok ((handleCreateEvent args p tz).1,
        ⟨[⟨"text", some ("Error creating event: " ++ m)⟩], true⟩) := by
  have hc : (handleCreateEvent args p tz).2 =
      ⟨[⟨"text", some ("Error creating event: " ++ m)⟩], true⟩ := by
    simp [handleCreateEvent, h, errEnvelope]
  have hd : dispatch "create_event" args p now tz =
      .ok (handleCreateEvent args p tz) := by
    simp [dispatch]
  rw [hd,
    show handleCreateEvent args p tz =
      ((handleCreateEvent args p tz).1, (handleCreateEvent args p tz).2) from rfl,
    hc]

/-- Witness for C2 at the simulated provider error quota exceeded. -/
theorem createEvent_quota_exceeded_witness :
    quotaProvider.calInsert = Except.error "quota exceeded" ∧
    dispatch "create_event"
        { summary := some "Sync", start := some "2025-03-01T10:00:00Z",
          end_ := some "2025-03-01T11:00:00Z" }
        quotaProvider "2025-03-01T00:00:00.000Z" "UTC" =
      .ok ((handleCreateEvent
            { summary := some "Sync", start := some "2025-03-01T10:00:00Z",
              end_ := some "2025-03-01T11:00:00Z" }
            quotaProvider "UTC").1,
        ⟨[⟨"text", some ("Error creating event: " ++ "quota exceeded")⟩], true⟩) :=
  ⟨rfl,
   createEvent_provider_error_envelope
     { summary := some "Sync", start := some "2025-03-01T10:00:00Z",
       end_ := some "2025-03-01T11:00:00Z" }
     quotaProvider "2025-03-01T00:00:00.000Z" "UTC" "quota exceeded" rfl⟩

/-- C5: search_emails is behaviorally identical to list_emails: for
every arguments object and every provider oracle the two handlers
issue the same provider calls and return the same ToolResult, on the
success and the error path alike. -/
theorem searchEmails_eq_listEmails (args : Args) (p : Provider) :
    handleSearchEmails args p = handleListEmails args p := rfl

/-- C3 (code bug): with to a@x.com, subject Hi, body the bold hi and
cc, bcc absent, filter(Boolean) drops the intended blank separator
line along with the skipped Cc/Bcc entries, so the message submitted
to the provider is the four header lines followed DIRECTLY by the
body, not headers, blank line, body as specified; the base64url
encoding of the built message does contain no plus, no slash and no
trailing equals. -/
theorem sendEmail_message_missing_blank_line :
    emailMessageOf c3Args =
      "Content-Type: text/html; charset=utf-8\r\nMIME-Version: 1.0\r\nTo: a@x.com\r\nSubject: Hi\r\n<b>hi</b>" ∧
    emailMessageOf c3Args ≠
      "Content-Type: text/html; charset=utf-8\r\nMIME-Version: 1.0\r\nTo: a@x.com\r\nSubject: Hi\r\n\r\n<b>hi</b>" ∧
    (handleSendEmail c3Args stubProvider).1 =
      [.gmailSend ⟨"me", encodeEmailMessage (emailMessageOf c3Args)⟩] ∧
    '+' ∉ (encodeEmailMessage (emailMessageOf c3Args)).toList ∧
    '/' ∉ (encodeEmailMessage (emailMessageOf c3Args)).toList ∧
    (encodeEmailMessage (emailMessageOf c3Args)).toList.getLast? ≠ some '=' := by
  exact ⟨by decide, by decide, by decide, by decide, by decide, by decide⟩

/-- C4 as stated is false: maxResults 0 is falsy, so the outbound list
request carries maxResults 10, and with one message in the mailbox the
handler issues a detail fetch and returns a non-empty JSON array, not
the empty array text. -/
theorem listEmails_maxResults_zero_counterexample :
    (handleListEmails { maxResults := some 0 } probeProvider).1 =
      [.gmailList ⟨"me", 10, ""⟩, .gmailGet ⟨"me", "m1"⟩] ∧
    (handleListEmails { maxResults := some 0 } probeProvider).2.content.map
        (fun c => c.text) ≠ [some "[]"] := by
  exact ⟨by decide, by decide⟩

/-- C4 amended: when the provider's message list is empty or the
messages field is absent, list_emails returns the empty JSON array
text with isError false and issues no detail fetch; a maxResults of 0
does not guarantee this, because the falsy-or default replaces 0 by 10
in the one outbound list request. -/
theorem listEmails_empty_mailbox_amended
    (args : Args) (p : Provider) (resp : ListMsgsResp)
    (h : p.gmailList = .ok resp) (hm : resp.messages.getD [] = []) :
    handleListEmails args p =
      ([.gmailList ⟨"me", jsOrNat args.maxResults 10, jsOrStr args.query ""⟩],
       ⟨[⟨"text", some "[]"⟩], false⟩) ∧
    (handleListEmails { args with maxResults := some 0 } p).1 =
      [.gmailList ⟨"me", 10, jsOrStr args.query ""⟩] := by
  constructor
  · simp only [handleListEmails, h, hm]
    rfl
  · simp only [handleListEmails, h, hm, jsOrNat]
    rfl

/-- Witness for C4 amended at the empty mailbox of stubProvider. -/
theorem listEmails_empty_mailbox_witness :
    stubProvider.gmailList = Except.ok ⟨some []⟩ ∧
    handleListEmails {} stubProvider =
      ([.gmailList ⟨"me", 10, ""⟩], ⟨[⟨"text", some "[]"⟩], false⟩) :=
  ⟨rfl, (listEmails_empty_mailbox_amended {} stubProvider ⟨some []⟩ rfl rfl).1⟩

/-- C6: the update_event patch body contains exactly the truthy
supplied fields among summary, location, description, start, end,
attendees (for the attendees array any supplied array is truthy) with
their supplied values, and only-eventId arguments produce the empty
patch object, sent in the single patch call. -/
theorem updateEvent_sparse_patch (args : Args) (p : Provider) (tz : String) :
    (handleUpdateEvent args p tz).1 =
      [.calPatch ⟨"primary", args.eventId, eventPatchOf args tz⟩] ∧
    (eventPatchOf args tz).summary.isSome = jsTruthyStr args.summary ∧
    (eventPatchOf args tz).location.isSome = jsTruthyStr args.location ∧
    (eventPatchOf args tz).description.isSome = jsTruthyStr args.description ∧
    (eventPatchOf args tz).start.isSome = jsTruthyStr args.start ∧
    (eventPatchOf args tz).end_.isSome = jsTruthyStr args.end_ ∧
    (eventPatchOf args tz).attendees.isSome = args.attendees.isSome ∧
    (∀ s, args.summary = some s → s ≠ "" →
      (eventPatchOf args tz).summary = some s) ∧
    (∀ s, args.start = some s → s ≠ "" →
      (eventPatchOf args tz).start = some ⟨some s, tz⟩) ∧
    eventPatchOf { eventId := some "e1" } tz = {} := by
  refine ⟨by cases hp : p.calPatch <;> simp [handleUpdateEvent, hp],
    ?_, ?_, ?_, ?_, ?_, ?_, ?_, ?_, by rfl⟩
  · cases hs : args.summary with
    | none => simp [eventPatchOf, jsTruthyStr, hs]
    | some s => by_cases he : s = "" <;> simp [eventPatchOf, jsTruthyStr, hs, he]
  · cases hs : args.location with
    | none => simp [eventPatchOf, jsTruthyStr, hs]
    | some s => by_cases he : s = "" <;> simp [eventPatchOf, jsTruthyStr, hs, he]
  · cases hs : args.description with
    | none => simp [eventPatchOf, jsTruthyStr, hs]
    | some s => by_cases he : s = "" <;> simp [eventPatchOf, jsTruthyStr, hs, he]
  · by_cases h : jsTruthyStr args.start <;> simp [eventPatchOf, h]
  · by_cases h : jsTruthyStr args.end_ <;> simp [eventPatchOf, h]
  · cases ha : args.attendees <;> simp [eventPatchOf, ha]
  · intro s hs hne
    simp [eventPatchOf, jsTruthyStr, hs, hne]
  · intro s hs hne
    simp [eventPatchOf, jsTruthyStr, hs, hne]

/-- Witness for C6: only-eventId arguments give the empty patch, and a
truthy summary is kept with its value. -/
theorem updateEvent_sparse_patch_witness :
    eventPatchOf { eventId := some "e1" } "UTC" = {} ∧
    (eventPatchOf { eventId := some "e1", summary := some "New title" }
      "UTC").summary = some "New title" :=
  ⟨(updateEvent_sparse_patch { eventId := some "e1" } stubProvider
      "UTC").2.2.2.2.2.2.2.2.2,
   (updateEvent_sparse_patch { eventId := some "e1", summary := some "New title" }
      stubProvider "UTC").2.2.2.2.2.2.2.1 "New title" rfl (by decide)⟩

/-- C8: list_events issues exactly one provider call, against calendar
primary with singleEvents true, orderBy startTime and the defaults 10
for maxResults and the current time for timeMin; when the provider
returns items, the result is the pretty-printed projection of the
items, in provider order, each to id, summary, start, end, location
with start and end passed through unchanged. -/
theorem listEvents_single_call_projection
    (args : Args) (p : Provider) (now : String) :
    (handleListEvents args p now).1 =
      [.calList ⟨"primary", jsOrStr args.timeMin now, args.timeMax,
        jsOrNat args.maxResults 10, true, "startTime"⟩] ∧
    ∀ items, p.calList = .ok ⟨some items⟩ →
      (handleListEvents args p now).2 =
        okEnvelope (jsonStringify (.arr (items.map projectEvent))) := by
  constructor
  · cases hp : p.calList <;> simp [handleListEvents, hp]
  · intro items hp
    simp [handleListEvents, hp]

/-- Witness for C8 at two sample events. -/
theorem listEvents_projection_witness :
    eventsProvider.calList = Except.ok ⟨some sampleEvents⟩ ∧
    (handleListEvents {} eventsProvider "2025-03-01T00:00:00.000Z").2 =
      okEnvelope (jsonStringify (.arr (sampleEvents.map projectEvent))) :=
  ⟨rfl,
   (listEvents_single_call_projection {} eventsProvider
     "2025-03-01T00:00:00.000Z").2 sampleEvents rfl⟩

/-- C9: modify_email with only an id issues a single modify call with
empty addLabelIds and removeLabelIds, does not fail for the missing
label fields, and returns a non-error result when the provider call
succeeds. -/
theorem modifyEmail_default_empty_labels
    (i : String) (p : Provider) (d : IdResp)
    (h : p.gmailModify = .ok d) :
    (handleModifyEmail { id := some i } p).1 =
      [.gmailModify ⟨"me", some i, [], []⟩] ∧
    (handleModifyEmail { id := some i } p).2 =
      ⟨[⟨"text", some ("Email modified successfully. Updated labels for message ID: "
        ++ jsStr d.id)⟩], false⟩ := by
  constructor
  · simp [handleModifyEmail, h]
  · simp [handleModifyEmail, h, okEnvelope]

/-- Witness for C9 at id m1 on a succeeding provider. -/
theorem modifyEmail_default_empty_labels_witness :
    stubProvider.gmailModify = Except.ok ⟨some "m1"⟩ ∧
    (handleModifyEmail { id := some "m1" } stubProvider).1 =
      [.gmailModify ⟨"me", some "m1", [], []⟩] ∧
    (handleModifyEmail { id := some "m1" } stubProvider).2.isError = false :=
  ⟨rfl,
   (modifyEmail_default_empty_labels "m1" stubProvider ⟨some "m1"⟩ rfl).1,
   by rw [(modifyEmail_default_empty_labels "m1" stubProvider ⟨some "m1"⟩ rfl).2]⟩

/-- C10: when the provider's event list response carries no items
field, list_events returns a content entry whose text is the undefined
value (JSON.stringify of undefined), not the string for the empty
array, with no error reported, while list_emails defaults an absent
messages field to the empty array and returns the empty array text. -/
theorem listEvents_missing_items_undefined
    (args : Args) (p q : Provider) (now : String)
    (hp : p.calList = .ok ⟨none⟩) (hq : q.gmailList = .ok ⟨none⟩) :
    (handleListEvents args p now).2 = okEnvelope none ∧
    (handleListEvents args p now).2.content = [⟨"text", none⟩] ∧
    (handleListEvents args p now).2.isError = false ∧
    (handleListEvents args p now).2.content ≠ [⟨"text", some "[]"⟩] ∧
    (handleListEmails args q).2 = ⟨[⟨"text", some "[]"⟩], false⟩ := by
  have he : (handleListEvents args p now).2 = okEnvelope none := by
    simp [handleListEvents, hp, jsonStringify]
  refine ⟨he, by rw [he]; rfl, by rw [he]; rfl, by rw [he]; simp [okEnvelope], ?_⟩
  simp only [handleListEmails, hq]
  rfl

/-- Witness for C10: probeProvider's event list has no items field,
noMessagesProvider's gmail list has no messages field. -/
theorem listEvents_missing_items_witness :
    probeProvider.calList = Except.ok ⟨none⟩ ∧
    noMessagesProvider.gmailList = Except.ok ⟨none⟩ ∧
    (handleListEvents {} probeProvider "2025-03-01T00:00:00.000Z").2 =
      okEnvelope none ∧
    (handleListEmails {} noMessagesProvider).2 = ⟨[⟨"text", some "[]"⟩], false⟩ :=
  ⟨rfl, rfl,
   (listEvents_missing_items_undefined {} probeProvider noMessagesProvider
     "2025-03-01T00:00:00.000Z" rfl rfl).1,
   (listEvents_missing_items_undefined {} probeProvider noMessagesProvider
     "2025-03-01T00:00:00.000Z" rfl rfl).2.2.2.2⟩

end GWS
